import Mathlib

/-!
Verification of the user video-library backend (src/app.js) against its
specification.  The embedding models the two relational tables created at
startup, the session gate `requireLogin`, and the six gated HTTP handlers
(save-video, like-video, unlike-video, unsave-video, saved-videos,
liked-videos).  The upstream metadata service is modelled as an oracle
`String → Option VideoMetadata` (`none` = that fetch fails).  Each handler
also returns the trace of store / upstream effects it performed, so that
gating and fan-out properties can be stated.
-/

namespace YtClone

/-- Row of the `liked_videos` table (src/app.js lines 41-49):
`id INTEGER PRIMARY KEY AUTOINCREMENT, user_id INTEGER, video_id TEXT,
liked_at DATETIME DEFAULT CURRENT_TIMESTAMP`.  Note: the CREATE TABLE
statement declares NO UNIQUE constraint on (user_id, video_id). -/
structure LikedRow where
  id : Nat
  user_id : Nat
  video_id : String
  liked_at : Nat
deriving DecidableEq, Repr

/-- Row of the `saved_videos` table (src/app.js lines 28-39). -/
structure SavedRow where
  id : Nat
  user_id : Nat
  video_id : String
  title : String
  thumbnail : String
  channel : String
  saved_at : Nat
deriving DecidableEq, Repr

/-- The database state: both tables plus each table's AUTOINCREMENT counter. -/
structure DB where
  liked : List LikedRow
  saved : List SavedRow
  nextLikedId : Nat
  nextSavedId : Nat
deriving DecidableEq, Repr

/-- Whether the schema of `liked_videos` enforces uniqueness of
(user_id, video_id).  Read off the CREATE TABLE statement at
src/app.js lines 41-49: it declares only the autoincrement primary key and
a foreign key, so this is `false`.  (The spec asserts such a constraint
exists; the handler at lines 243-245 branches on it, but with this schema
that branch is dead.) -/
def likedUniqueConstraint : Bool := false

/-- Structured SQLite error, as distinguished by the handlers: they test
`err.message.includes("UNIQUE constraint failed")` and treat everything
else as a generic database error. -/
inductive SqlErr
  | uniqueViolation
  | other
deriving DecidableEq, Repr

/-- INSERT INTO liked_videos (user_id, video_id) VALUES (?, ?) — fails with
a UNIQUE-constraint violation only if the schema declares the constraint
and a matching row exists; otherwise appends a fresh row. -/
def insertLiked (uid : Nat) (v : String) (now : Nat) (st : DB) :
    Except SqlErr (Nat × DB) :=
  if likedUniqueConstraint ∧
      st.liked.any (fun r => r.user_id = uid ∧ r.video_id = v) then
    .error .uniqueViolation
  else
    .ok (st.nextLikedId,
      { st with
        liked := st.liked ++ [⟨st.nextLikedId, uid, v, now⟩],
        nextLikedId := st.nextLikedId + 1 })

/-- INSERT INTO saved_videos (user_id, video_id, title, thumbnail, channel)
— the `saved_videos` schema declares no constraint beyond the autoincrement
primary key, so the insert always succeeds. -/
def insertSaved (uid : Nat) (v title thumb chan : String) (now : Nat)
    (st : DB) : Nat × DB :=
  (st.nextSavedId,
    { st with
      saved := st.saved ++ [⟨st.nextSavedId, uid, v, title, thumb, chan, now⟩],
      nextSavedId := st.nextSavedId + 1 })

/-- Metadata returned by the upstream `GET /streams/videoId` call:
the handler reads `title`, `thumbnailUrl`, `uploader`, `duration`. -/
structure VideoMetadata where
  title : String
  thumbnailUrl : String
  uploader : String
  duration : Nat
deriving DecidableEq, Repr

/-- Entry of the enriched response of GET /api/liked-videos
(src/app.js lines 316-322). -/
structure EnrichedVideo where
  videoId : String
  title : String
  thumbnail : String
  channel : String
  duration : Nat
deriving DecidableEq, Repr

/-- Entry of the response of GET /api/saved-videos (the SELECT projects
video_id as videoId, title, thumbnail, channel, saved_at as savedAt). -/
structure SavedListing where
  videoId : String
  title : String
  thumbnail : String
  channel : String
  savedAt : Nat
deriving DecidableEq, Repr

/-- HTTP response: success with a JSON body of type α, or an error status
with a message. -/
inductive Response (α : Type)
  | ok (body : α)
  | err (status : Nat) (msg : String)
deriving DecidableEq, Repr

/-- Observable side effects of one request: store accesses and upstream
fetches (one per liked id the aggregator fans out to). -/
inductive Effect
  | storeRead
  | storeWrite
  | fetch (videoId : String)
deriving DecidableEq, Repr

/-- JavaScript falsiness of an optional string field: `!x` is true when the
field is absent or the empty string. -/
def falsy : Option String → Bool
  | none => true
  | some s => s = ""

/-- Auth middleware `requireLogin` (src/app.js lines 74-79): without
`req.session.userId` respond 401 immediately; the handler — and hence any
store or upstream access — runs only behind a session. -/
def requireLogin (sess : Option Nat)
    (handler : Nat → Response α × DB × List Effect) (st : DB) :
    Response α × DB × List Effect :=
  match sess with
  | none => (.err 401 "Unauthorized", st, [])
  | some uid => handler uid

/-- Insert a liked row into a list kept sorted by liked_at descending,
keeping earlier rows first among equal timestamps. -/
def insertByLikedAtDesc (r : LikedRow) : List LikedRow → List LikedRow
  | [] => [r]
  | x :: xs =>
    if r.liked_at ≤ x.liked_at then x :: insertByLikedAtDesc r xs
    else r :: x :: xs

/-- ORDER BY liked_at DESC. -/
def sortByLikedAtDesc : List LikedRow → List LikedRow
  | [] => []
  | x :: xs => insertByLikedAtDesc x (sortByLikedAtDesc xs)

/-- Insert a saved row into a list kept sorted by saved_at descending. -/
def insertBySavedAtDesc (r : SavedRow) : List SavedRow → List SavedRow
  | [] => [r]
  | x :: xs =>
    if r.saved_at ≤ x.saved_at then x :: insertBySavedAtDesc r xs
    else r :: x :: xs

/-- ORDER BY saved_at DESC. -/
def sortBySavedAtDesc : List SavedRow → List SavedRow
  | [] => []
  | x :: xs => insertBySavedAtDesc x (sortBySavedAtDesc xs)

/-- SELECT video_id FROM liked_videos WHERE user_id = ? ORDER BY liked_at
DESC (src/app.js line 304). -/
def listLikedIds (uid : Nat) (st : DB) : List String :=
  (sortByLikedAtDesc (st.liked.filter (fun r => r.user_id = uid))).map
    (fun r => r.video_id)

/-- The body of POST /api/save-video; each field may be absent. -/
structure SaveBody where
  videoId : Option String
  title : Option String
  thumbnail : Option String
  channel : Option String
deriving DecidableEq, Repr

/-- POST /api/save-video handler body (src/app.js lines 212-229): reject
with 400 if any of the four fields is missing or empty, otherwise insert a
fresh row and answer with its generated id. -/
def saveVideoHandler (uid : Nat) (body : SaveBody) (now : Nat) (st : DB) :
    Response Nat × DB × List Effect :=
  if falsy body.videoId ∨ falsy body.title ∨ falsy body.thumbnail ∨
      falsy body.channel then
    (.err 400 "All video fields are required", st, [])
  else
    let r := insertSaved uid (body.videoId.getD "") (body.title.getD "")
      (body.thumbnail.getD "") (body.channel.getD "") now st
    (.ok r.1, r.2, [.storeWrite])

/-- POST /api/like-video handler body (src/app.js lines 231-251): reject
with 400 if videoId is missing or empty; otherwise run the INSERT, mapping
a UNIQUE-constraint violation to 400 "Video already liked" and any other
SQL error to 500. -/
def likeVideoHandler (uid : Nat) (videoId : Option String) (now : Nat)
    (st : DB) : Response Nat × DB × List Effect :=
  if falsy videoId then
    (.err 400 "Video ID is required", st, [])
  else
    match insertLiked uid (videoId.getD "") now st with
    | .error .uniqueViolation => (.err 400 "Video already liked", st, [.storeWrite])
    | .error .other => (.err 500 "Database error", st, [.storeWrite])
    | .ok (newId, st') => (.ok newId, st', [.storeWrite])

/-- DELETE /api/unlike-video/:videoId handler body (src/app.js lines
253-269): DELETE FROM liked_videos WHERE user_id = ? AND video_id = ?;
404 when zero rows changed, success otherwise. -/
def unlikeVideoHandler (uid : Nat) (videoId : String) (st : DB) :
    Response Unit × DB × List Effect :=
  let remaining := st.liked.filter
    (fun r => ¬(r.user_id = uid ∧ r.video_id = videoId))
  if remaining.length = st.liked.length then
    (.err 404 "Like not found", st, [.storeWrite])
  else
    (.ok (), { st with liked := remaining }, [.storeWrite])

/-- DELETE /api/unsave-video/:videoId handler body (src/app.js lines
271-287): DELETE FROM saved_videos WHERE user_id = ? AND video_id = ?;
404 when zero rows changed, success otherwise. -/
def unsaveVideoHandler (uid : Nat) (videoId : String) (st : DB) :
    Response Unit × DB × List Effect :=
  let remaining := st.saved.filter
    (fun r => ¬(r.user_id = uid ∧ r.video_id = videoId))
  if remaining.length = st.saved.length then
    (.err 404 "Saved video not found", st, [.storeWrite])
  else
    (.ok (), { st with saved := remaining }, [.storeWrite])

/-- GET /api/saved-videos handler body (src/app.js lines 289-300). -/
def savedVideosHandler (uid : Nat) (st : DB) :
    Response (List SavedListing) × DB × List Effect :=
  let rows := sortBySavedAtDesc (st.saved.filter (fun r => r.user_id = uid))
  (.ok (rows.map (fun r => ⟨r.video_id, r.title, r.thumbnail, r.channel,
    r.saved_at⟩)), st, [.storeRead])

/-- The fan-out join of src/app.js lines 313-324: `Promise.all` over one
fetch per liked id, in order; if every fetch succeeds the result is the
list of enriched entries in the same order, and if any fetch fails the
whole join fails. -/
def enrichAll (fetch : String → Option VideoMetadata) :
    List String → Option (List EnrichedVideo)
  | [] => some []
  | v :: rest =>
    match fetch v with
    | none => none
    | some m =>
      match enrichAll fetch rest with
      | none => none
      | some tl =>
        some (⟨v, m.title, m.thumbnailUrl, m.uploader, m.duration⟩ :: tl)

/-- GET /api/liked-videos handler body (src/app.js lines 302-331): read the
ordered liked ids, fan out one upstream fetch per id (all of them are
issued by `likes.map` before `Promise.all` awaits), answer with the
enriched list on success and 500 if any fetch failed. -/
def likedVideosHandler (uid : Nat) (fetch : String → Option VideoMetadata)
    (st : DB) : Response (List EnrichedVideo) × DB × List Effect :=
  let ids := listLikedIds uid st
  match enrichAll fetch ids with
  | none =>
    (.err 500 "Failed to fetch video details", st,
      .storeRead :: ids.map .fetch)
  | some vs => (.ok vs, st, .storeRead :: ids.map .fetch)

/-- POST /api/save-video, gate included. -/
def apiSaveVideo (sess : Option Nat) (body : SaveBody) (now : Nat)
    (st : DB) : Response Nat × DB × List Effect :=
  requireLogin sess (fun uid => saveVideoHandler uid body now st) st

/-- POST /api/like-video, gate included. -/
def apiLikeVideo (sess : Option Nat) (videoId : Option String) (now : Nat)
    (st : DB) : Response Nat × DB × List Effect :=
  requireLogin sess (fun uid => likeVideoHandler uid videoId now st) st

/-- DELETE /api/unlike-video/:videoId, gate included. -/
def apiUnlikeVideo (sess : Option Nat) (videoId : String) (st : DB) :
    Response Unit × DB × List Effect :=
  requireLogin sess (fun uid => unlikeVideoHandler uid videoId st) st

/-- DELETE /api/unsave-video/:videoId, gate included. -/
def apiUnsaveVideo (sess : Option Nat) (videoId : String) (st : DB) :
    Response Unit × DB × List Effect :=
  requireLogin sess (fun uid => unsaveVideoHandler uid videoId st) st

/-- GET /api/saved-videos, gate included. -/
def apiSavedVideos (sess : Option Nat) (st : DB) :
    Response (List SavedListing) × DB × List Effect :=
  requireLogin sess (fun uid => savedVideosHandler uid st) st

/-- GET /api/liked-videos, gate included. -/
def apiLikedVideos (sess : Option Nat)
    (fetch : String → Option VideoMetadata) (st : DB) :
    Response (List EnrichedVideo) × DB × List Effect :=
  requireLogin sess (fun uid => likedVideosHandler uid fetch st) st

/-- Number of liked rows of one (user, videoId) pair. -/
def countLiked (uid : Nat) (v : String) (st : DB) : Nat :=
  (st.liked.filter (fun r => r.user_id = uid ∧ r.video_id = v)).length

/-- Number of saved rows of one (user, videoId) pair. -/
def countSaved (uid : Nat) (v : String) (st : DB) : Nat :=
  (st.saved.filter (fun r => r.user_id = uid ∧ r.video_id = v)).length

/-- State effect of DELETE FROM saved_videos WHERE user_id = ? AND
video_id = ?: every matching row is removed, the rest untouched. -/
def removeSaved (uid : Nat) (v : String) (st : DB) : DB :=
  { st with
    saved := st.saved.filter (fun r => ¬(r.user_id = uid ∧ r.video_id = v)) }

/-- State effect of DELETE FROM liked_videos WHERE user_id = ? AND
video_id = ?: every matching row is removed, the rest untouched. -/
def removeLiked (uid : Nat) (v : String) (st : DB) : DB :=
  { st with
    liked := st.liked.filter (fun r => ¬(r.user_id = uid ∧ r.video_id = v)) }

/-- State after a successful INSERT INTO liked_videos: one fresh row with
the next AUTOINCREMENT id. -/
def likeInsertedState (uid : Nat) (v : String) (now : Nat) (st : DB) : DB :=
  { st with
    liked := st.liked ++ [⟨st.nextLikedId, uid, v, now⟩],
    nextLikedId := st.nextLikedId + 1 }

/-- Field mapping of one fetched metadata record onto an enriched entry:
title verbatim, thumbnailUrl to thumbnail, uploader to channel, duration
verbatim. -/
def enrichWith (g : String → VideoMetadata) (ids : List String) :
    List EnrichedVideo :=
  ids.map (fun v => ⟨v, (g v).title, (g v).thumbnailUrl, (g v).uploader,
    (g v).duration⟩)

/-! Helper lemmas about the embedding. -/

theorem length_filter_plus_not (p : α → Bool) (l : List α) :
    (l.filter p).length + (l.filter (fun a => !p a)).length = l.length := by
  induction l with
  | nil => rfl
  | cons a l ih =>
    by_cases h : p a = true <;>
      simp [List.filter_cons, h, Nat.succ_eq_add_one] <;> omega

theorem filter_not_self (p : α → Bool) (l : List α) :
    (l.filter (fun a => !p a)).filter p = [] := by
  induction l with
  | nil => rfl
  | cons a l ih =>
    by_cases h : p a = true <;> simp [List.filter_cons, h, ih]

theorem enrichAll_of_fails (fetch : String → Option VideoMetadata)
    (ids : List String) (v : String) (hv : v ∈ ids)
    (hf : fetch v = none) : enrichAll fetch ids = none := by
  induction ids with
  | nil => cases hv
  | cons a rest ih =>
    rcases List.mem_cons.mp hv with h | h
    · subst h
      simp [enrichAll, hf]
    · unfold enrichAll
      cases hfa : fetch a with
      | none => rfl
      | some m => rw [ih h]

theorem enrichAll_of_all_succeed (fetch : String → Option VideoMetadata)
    (g : String → VideoMetadata) (ids : List String)
    (h : ∀ v ∈ ids, fetch v = some (g v)) :
    enrichAll fetch ids = some (enrichWith g ids) := by
  induction ids with
  | nil => rfl
  | cons a rest ih =>
    have ha : fetch a = some (g a) := h a (List.mem_cons_self a rest)
    have hrest : ∀ v ∈ rest, fetch v = some (g v) :=
      fun v hv => h v (List.mem_cons_of_mem a hv)
    simp [enrichAll, ha, ih hrest, enrichWith]

theorem length_filter_prop_add (P : α → Prop) [DecidablePred P]
    (l : List α) :
    (l.filter (fun a => P a)).length +
      (l.filter (fun a => ¬ P a)).length = l.length := by
  simpa [decide_not] using
    length_filter_plus_not (fun a => decide (P a)) l

theorem filter_prop_not_self (P : α → Prop) [DecidablePred P]
    (l : List α) :
    (l.filter (fun a => ¬ P a)).filter (fun a => P a) = [] := by
  have h := filter_not_self (fun a => decide (P a)) l
  simp only [decide_not] at h ⊢
  exact h

/-! Claim theorems. -/

/-- C1 (code evaluation at the failing input): starting from an empty
database, user 1 likes video "v1" twice.  Because the `liked_videos`
schema declares no UNIQUE(user_id, video_id) constraint, the second like
also succeeds (returning a fresh likeId) and the store then holds two rows
for the pair — contradicting the spec, which requires the second call to
fail with DuplicateLike and the store to keep exactly one entry.  The
handler's duplicate branch exists in the source but is unreachable under
this schema. -/
theorem second_like_inserts_duplicate_row :
    (apiLikeVideo (some 1) (some "v1") 10 ⟨[], [], 1, 1⟩).1 = .ok 1 ∧
    (apiLikeVideo (some 1) (some "v1") 20
      (apiLikeVideo (some 1) (some "v1") 10 ⟨[], [], 1, 1⟩).2.1).1 = .ok 2 ∧
    countLiked 1 "v1"
      (apiLikeVideo (some 1) (some "v1") 20
        (apiLikeVideo (some 1) (some "v1") 10 ⟨[], [], 1, 1⟩).2.1).2.1 = 2 := by
  decide

/-- C6: a save-video request with any of the four fields missing or empty
fails with 400 and leaves the store untouched with no store access; with
all four fields non-empty it inserts exactly one new row carrying the
generated identifier `st.nextSavedId`, which it returns. -/
theorem save_video_validation_and_insert (uid : Nat) (body : SaveBody)
    (now : Nat) (st : DB) :
    apiSaveVideo (some uid) body now st =
      if falsy body.videoId ∨ falsy body.title ∨ falsy body.thumbnail ∨
          falsy body.channel then
        (.err 400 "All video fields are required", st, [])
      else
        (.ok st.nextSavedId,
          { st with
            saved := st.saved ++ [⟨st.nextSavedId, uid, body.videoId.getD "",
              body.title.getD "", body.thumbnail.getD "",
              body.channel.getD "", now⟩],
            nextSavedId := st.nextSavedId + 1 },
          [.storeWrite]) := by
  rfl

/-- C9: each of the six gated endpoints, called without an authenticated
session, answers 401 Unauthorized, leaves the store unchanged, and
performs no store read, no store write and no upstream fetch (empty effect
trace). -/
theorem unauthorized_requests_touch_nothing (st : DB) (body : SaveBody)
    (videoId : Option String) (v : String) (now : Nat)
    (fetch : String → Option VideoMetadata) :
    apiSaveVideo none body now st = (.err 401 "Unauthorized", st, []) ∧
    apiLikeVideo none videoId now st = (.err 401 "Unauthorized", st, []) ∧
    apiUnlikeVideo none v st = (.err 401 "Unauthorized", st, []) ∧
    apiUnsaveVideo none v st = (.err 401 "Unauthorized", st, []) ∧
    apiSavedVideos none st = (.err 401 "Unauthorized", st, []) ∧
    apiLikedVideos none fetch st = (.err 401 "Unauthorized", st, []) := by
  exact ⟨rfl, rfl, rfl, rfl, rfl, rfl⟩

/-- C10: a like-video request whose videoId is present but empty is
rejected with the same 400 response, unchanged state and empty effect
trace as a request with the field absent — the `!videoId` check treats
both identically. -/
theorem like_empty_videoId_equals_missing (uid now : Nat) (st : DB) :
    apiLikeVideo (some uid) (some "") now st =
      (.err 400 "Video ID is required", st, []) ∧
    apiLikeVideo (some uid) none now st =
      apiLikeVideo (some uid) (some "") now st := by
  exact ⟨rfl, rfl⟩

/-- C2: whenever the metadata fetch fails for at least one of the user's
liked ids, GET /api/liked-videos fails as a whole with 500 "Failed to
fetch video details" and returns no partial list — the response carries no
enriched entries at all (the fan-out still issues one fetch per liked id,
as Promise.all starts them all). -/
theorem liked_videos_all_or_nothing (uid : Nat)
    (fetch : String → Option VideoMetadata) (st : DB) (v : String)
    (hv : v ∈ listLikedIds uid st) (hf : fetch v = none) :
    apiLikedVideos (some uid) fetch st =
      (.err 500 "Failed to fetch video details", st,
        .storeRead :: (listLikedIds uid st).map .fetch) := by
  simp only [apiLikedVideos, requireLogin, likedVideosHandler,
    enrichAll_of_fails fetch (listLikedIds uid st) v hv hf]

/-- Witness for C2: user 1 has liked "a" and the fetch oracle fails on
every id; the aggregation answers 500 with no partial data. -/
theorem liked_videos_all_or_nothing_witness :
    apiLikedVideos (some 1) (fun _ => none)
        ⟨[⟨1, 1, "a", 5⟩], [], 2, 1⟩ =
      (.err 500 "Failed to fetch video details", ⟨[⟨1, 1, "a", 5⟩], [], 2, 1⟩,
        [.storeRead, .fetch "a"]) := by
  exact liked_videos_all_or_nothing 1 (fun _ => none)
    ⟨[⟨1, 1, "a", 5⟩], [], 2, 1⟩ "a" (by decide) rfl

/-- C3: when the fetch succeeds on every liked id (with result `g v` for
id v), GET /api/liked-videos answers the enriched list obtained by mapping
over `listLikedIds` (liked_at descending) — same length, same order, and
each entry takes title verbatim, thumbnailUrl as thumbnail, uploader as
channel and duration verbatim from the fetch result. -/
theorem liked_videos_success_order_and_fields (uid : Nat)
    (fetch : String → Option VideoMetadata) (g : String → VideoMetadata)
    (st : DB) (h : ∀ v ∈ listLikedIds uid st, fetch v = some (g v)) :
    apiLikedVideos (some uid) fetch st =
      (.ok (enrichWith g (listLikedIds uid st)), st,
        .storeRead :: (listLikedIds uid st).map .fetch) := by
  simp only [apiLikedVideos, requireLogin, likedVideosHandler,
    enrichAll_of_all_succeed fetch g (listLikedIds uid st) h]

/-- Witness for C3: user 1 liked A at time 1, B at time 2, C at time 3, so
the liked ids are [C, B, A]; with an everywhere-successful fetch the
response is the three enriched entries in that order with the fields
mapped verbatim. -/
theorem liked_videos_success_order_and_fields_witness :
    apiLikedVideos (some 1)
        (fun v => some ⟨v ++ "-title", v ++ "-thumb", v ++ "-chan", 7⟩)
        ⟨[⟨1, 1, "A", 1⟩, ⟨2, 1, "B", 2⟩, ⟨3, 1, "C", 3⟩], [], 4, 1⟩ =
      (.ok [⟨"C", "C-title", "C-thumb", "C-chan", 7⟩,
            ⟨"B", "B-title", "B-thumb", "B-chan", 7⟩,
            ⟨"A", "A-title", "A-thumb", "A-chan", 7⟩],
        ⟨[⟨1, 1, "A", 1⟩, ⟨2, 1, "B", 2⟩, ⟨3, 1, "C", 3⟩], [], 4, 1⟩,
        [.storeRead, .fetch "C", .fetch "B", .fetch "A"]) := by
  exact liked_videos_success_order_and_fields 1
    (fun v => some ⟨v ++ "-title", v ++ "-thumb", v ++ "-chan", 7⟩)
    (fun v => ⟨v ++ "-title", v ++ "-thumb", v ++ "-chan", 7⟩)
    ⟨[⟨1, 1, "A", 1⟩, ⟨2, 1, "B", 2⟩, ⟨3, 1, "C", 3⟩], [], 4, 1⟩
    (by decide)

/-- C8: a user with zero liked videos gets a 200 response with the empty
list from GET /api/liked-videos — not an error — and no metadata fetch is
attempted (the effect trace holds only the store read). -/
theorem liked_videos_empty_list (uid : Nat)
    (fetch : String → Option VideoMetadata) (st : DB)
    (h : listLikedIds uid st = []) :
    apiLikedVideos (some uid) fetch st = (.ok [], st, [.storeRead]) := by
  simp only [apiLikedVideos, requireLogin, likedVideosHandler, h]
  rfl

/-- Witness for C8: the empty database has no liked rows for user 1, and
the aggregation answers the empty list without any fetch. -/
theorem liked_videos_empty_list_witness :
    apiLikedVideos (some 1) (fun _ => none) ⟨[], [], 1, 1⟩ =
      (.ok [], ⟨[], [], 1, 1⟩, [.storeRead]) := by
  exact liked_videos_empty_list 1 (fun _ => none) ⟨[], [], 1, 1⟩ rfl

/-- C4: one DELETE /api/unsave-video call with at least one matching saved
entry removes every matching entry (the store keeps exactly the
non-matching rows and zero matching rows remain) and returns success;
with zero matching entries it answers 404 and the store is unchanged. -/
theorem unsave_removes_all_or_404 (uid : Nat) (v : String) (st : DB) :
    (countSaved uid v st = 0 →
      apiUnsaveVideo (some uid) v st =
        (.err 404 "Saved video not found", st, [.storeWrite])) ∧
    (1 ≤ countSaved uid v st →
      apiUnsaveVideo (some uid) v st =
        (.ok (), removeSaved uid v st, [.storeWrite]) ∧
      countSaved uid v (removeSaved uid v st) = 0) := by
  have hlen := length_filter_prop_add
    (fun r : SavedRow => r.user_id = uid ∧ r.video_id = v) st.saved
  constructor
  · intro h0
    simp only [countSaved] at h0
    have hc : (st.saved.filter
        (fun r => ¬(r.user_id = uid ∧ r.video_id = v))).length =
        st.saved.length := by omega
    simp only [apiUnsaveVideo, requireLogin, unsaveVideoHandler]
    rw [if_pos hc]
  · intro h1
    simp only [countSaved] at h1
    have hc : ¬((st.saved.filter
        (fun r => ¬(r.user_id = uid ∧ r.video_id = v))).length =
        st.saved.length) := by omega
    refine ⟨?_, ?_⟩
    · simp only [apiUnsaveVideo, requireLogin, unsaveVideoHandler]
      rw [if_neg hc]
      rfl
    · simp only [countSaved, removeSaved]
      rw [filter_prop_not_self
        (fun r : SavedRow => r.user_id = uid ∧ r.video_id = v) st.saved]
      rfl

/-- Witness for C4: user 1 saved "v" twice; one unsave removes both rows
and succeeds, while unsaving "w" from an empty store answers 404. -/
theorem unsave_removes_all_or_404_witness :
    apiUnsaveVideo (some 1) "v"
        ⟨[], [⟨1, 1, "v", "t", "th", "c", 0⟩, ⟨2, 1, "v", "t", "th", "c", 1⟩],
          1, 3⟩ =
      (.ok (), ⟨[], [], 1, 3⟩, [.storeWrite]) ∧
    apiUnsaveVideo (some 1) "w" ⟨[], [], 1, 1⟩ =
      (.err 404 "Saved video not found", ⟨[], [], 1, 1⟩, [.storeWrite]) := by
  constructor
  · exact ((unsave_removes_all_or_404 1 "v"
      ⟨[], [⟨1, 1, "v", "t", "th", "c", 0⟩, ⟨2, 1, "v", "t", "th", "c", 1⟩],
        1, 3⟩).2 (by decide)).1.trans (by decide)
  · exact (unsave_removes_all_or_404 1 "w" ⟨[], [], 1, 1⟩).1 (by decide)

/-- C5: with all four fields non-empty, saving the same video twice for the
same user succeeds both times, returns two distinct generated identifiers
(consecutive AUTOINCREMENT values), and leaves two more matching rows in
the store than before — saves are never deduplicated. -/
theorem save_twice_two_distinct_rows (uid : Nat) (body : SaveBody)
    (now1 now2 : Nat) (st : DB)
    (h1 : falsy body.videoId = false) (h2 : falsy body.title = false)
    (h3 : falsy body.thumbnail = false) (h4 : falsy body.channel = false) :
    ∃ st1 st2,
      apiSaveVideo (some uid) body now1 st =
        (.ok st.nextSavedId, st1, [.storeWrite]) ∧
      apiSaveVideo (some uid) body now2 st1 =
        (.ok (st.nextSavedId + 1), st2, [.storeWrite]) ∧
      st.nextSavedId ≠ st.nextSavedId + 1 ∧
      countSaved uid (body.videoId.getD "") st2 =
        countSaved uid (body.videoId.getD "") st + 2 := by
  refine ⟨(insertSaved uid (body.videoId.getD "") (body.title.getD "")
      (body.thumbnail.getD "") (body.channel.getD "") now1 st).2,
    (insertSaved uid (body.videoId.getD "") (body.title.getD "")
      (body.thumbnail.getD "") (body.channel.getD "") now2
      (insertSaved uid (body.videoId.getD "") (body.title.getD "")
        (body.thumbnail.getD "") (body.channel.getD "") now1 st).2).2,
    ?_, ?_, by omega, ?_⟩
  · simp [apiSaveVideo, requireLogin, saveVideoHandler, insertSaved,
      h1, h2, h3, h4]
  · simp [apiSaveVideo, requireLogin, saveVideoHandler, insertSaved,
      h1, h2, h3, h4]
  · simp [countSaved, insertSaved, List.filter_append, List.filter_cons]

/-- Witness for C5: user 1 saves video "v" twice into an empty store: the
calls return ids 1 and 2 and the matching-row count grows from 0 to 2. -/
theorem save_twice_two_distinct_rows_witness :
    ∃ st1 st2,
      apiSaveVideo (some 1) ⟨some "v", some "t", some "th", some "c"⟩ 0
          ⟨[], [], 1, 1⟩ = (.ok 1, st1, [.storeWrite]) ∧
      apiSaveVideo (some 1) ⟨some "v", some "t", some "th", some "c"⟩ 1
          st1 = (.ok 2, st2, [.storeWrite]) ∧
      (1 : Nat) ≠ 2 ∧
      countSaved 1 "v" st2 = countSaved 1 "v" ⟨[], [], 1, 1⟩ + 2 :=
  save_twice_two_distinct_rows 1 ⟨some "v", some "t", some "th", some "c"⟩
    0 1 ⟨[], [], 1, 1⟩ rfl rfl rfl rfl

/-- C7: unliking a videoId with no matching liked entry answers 404 and
leaves the store unchanged; after a successful like of a non-empty
videoId, an unlike succeeds and leaves zero matching entries for that
(user, videoId) pair. -/
theorem unlike_not_found_or_after_like (uid : Nat) (v : String)
    (now : Nat) (st : DB) :
    (countLiked uid v st = 0 →
      apiUnlikeVideo (some uid) v st =
        (.err 404 "Like not found", st, [.storeWrite])) ∧
    (v ≠ "" →
      apiLikeVideo (some uid) (some v) now st =
        (.ok st.nextLikedId, likeInsertedState uid v now st,
          [.storeWrite]) ∧
      apiUnlikeVideo (some uid) v (likeInsertedState uid v now st) =
        (.ok (), removeLiked uid v (likeInsertedState uid v now st),
          [.storeWrite]) ∧
      countLiked uid v (removeLiked uid v (likeInsertedState uid v now st))
        = 0) := by
  constructor
  · intro h0
    have hlen := length_filter_prop_add
      (fun r : LikedRow => r.user_id = uid ∧ r.video_id = v) st.liked
    simp only [countLiked] at h0
    have hc : (st.liked.filter
        (fun r => ¬(r.user_id = uid ∧ r.video_id = v))).length =
        st.liked.length := by omega
    simp only [apiUnlikeVideo, requireLogin, unlikeVideoHandler]
    rw [if_pos hc]
  · intro hv
    refine ⟨?_, ?_, ?_⟩
    · simp [apiLikeVideo, requireLogin, likeVideoHandler, insertLiked,
        likedUniqueConstraint, falsy, hv, likeInsertedState]
    · have hfilter : (st.liked ++ [(⟨st.nextLikedId, uid, v, now⟩ : LikedRow)]).filter
          (fun r => ¬(r.user_id = uid ∧ r.video_id = v)) =
          st.liked.filter (fun r => ¬(r.user_id = uid ∧ r.video_id = v)) := by
        simp [List.filter_append, List.filter_cons]
      have hle := List.length_filter_le
        (fun r : LikedRow => ¬(r.user_id = uid ∧ r.video_id = v)) st.liked
      have hc : ¬(((likeInsertedState uid v now st).liked.filter
          (fun r => ¬(r.user_id = uid ∧ r.video_id = v))).length =
          (likeInsertedState uid v now st).liked.length) := by
        simp only [likeInsertedState]
        rw [hfilter, List.length_append]
        simp only [List.length_cons, List.length_nil]
        omega
      simp only [apiUnlikeVideo, requireLogin, unlikeVideoHandler]
      rw [if_neg hc]
      rfl
    · simp only [countLiked, removeLiked]
      rw [filter_prop_not_self
        (fun r : LikedRow => r.user_id = uid ∧ r.video_id = v)
        (likeInsertedState uid v now st).liked]
      rfl

/-- Witness for C7: unliking "v" from an empty store answers 404; user 1
likes "v" into an empty store and then unlikes it, leaving zero matching
entries. -/
theorem unlike_not_found_or_after_like_witness :
    apiUnlikeVideo (some 1) "v" ⟨[], [], 1, 1⟩ =
      (.err 404 "Like not found", ⟨[], [], 1, 1⟩, [.storeWrite]) ∧
    (apiLikeVideo (some 1) (some "v") 5 ⟨[], [], 1, 1⟩ =
        (.ok 1, likeInsertedState 1 "v" 5 ⟨[], [], 1, 1⟩, [.storeWrite]) ∧
      apiUnlikeVideo (some 1) "v" (likeInsertedState 1 "v" 5 ⟨[], [], 1, 1⟩) =
        (.ok (), removeLiked 1 "v" (likeInsertedState 1 "v" 5 ⟨[], [], 1, 1⟩),
          [.storeWrite]) ∧
      countLiked 1 "v"
        (removeLiked 1 "v" (likeInsertedState 1 "v" 5 ⟨[], [], 1, 1⟩)) = 0) := by
  refine ⟨?_, ?_⟩
  · exact (unlike_not_found_or_after_like 1 "v" 5 ⟨[], [], 1, 1⟩).1
      (by decide)
  · exact (unlike_not_found_or_after_like 1 "v" 5 ⟨[], [], 1, 1⟩).2
      (by decide)

end YtClone
